import Mathlib

/-!
Shallow embedding of `src/lib/common/sequelize.utils.ts`: the injection
token helpers (getModelToken, getConnectionToken, getConnectionPrefix,
getConnectionName) and the handleRetry retry wrapper, together with proofs
of the specification claims about them.
-/

namespace SequelizeUtils

/-- Modelled from the spec: the constant DEFAULT_CONNECTION_NAME is imported
from `../sequelize.constants`, a file not present under src. The utility
module's own doc comments record its value as the literal string
`'default'` (`@param {string} [connection='default'] Connection name`).
No claim depends on the particular value, only on comparisons with it. -/
def DEFAULT_CONNECTION_NAME : String := "default"

/-- Fields of the SequelizeModuleOptions interface that the utilities read:
only the optional connection name. `none` models an absent (undefined)
name; `some ""` models a present but empty, hence JS-falsy, name. -/
structure SequelizeModuleOptions where
  name : Option String
  deriving DecidableEq

/-- The `connection` argument of the token helpers: either a plain string
name or a SequelizeModuleOptions object. -/
inductive Connection where
  | str : String → Connection
  | options : SequelizeModuleOptions → Connection
  deriving DecidableEq

/-- A model class (a JS `Function` value): the utilities only read `name`. -/
structure EntityClass where
  name : String
  deriving DecidableEq

/-- The CircularDependencyException, carrying its context string. -/
structure CircularDependencyException where
  context : String
  deriving DecidableEq

/-- Result type of getConnectionToken (`string | Function | Type<Sequelize>`):
either the Sequelize class itself or a string token. -/
inductive ConnectionToken where
  | sequelizeClass : ConnectionToken
  | token : String → ConnectionToken
  deriving DecidableEq

/-- getConnectionPrefix, sequelize.utils.ts lines 59 to 72. The JS checks, in
order: `connection === DEFAULT_CONNECTION_NAME` (strict equality, which only
a string can satisfy), `typeof connection === 'string'`, and then
`connection.name === DEFAULT_CONNECTION_NAME || !connection.name`, where
`!connection.name` is true for an undefined name and for the empty string. -/
def getConnectionPrefix (connection : Connection) : String :=
  match connection with
  | Connection.str s =>
    if s = DEFAULT_CONNECTION_NAME then "" else s ++ "_"
  | Connection.options o =>
    match o.name with
    | none => ""
    | some s =>
      if s = DEFAULT_CONNECTION_NAME ∨ s.isEmpty then "" else s ++ "_"

/-- getConnectionToken, sequelize.utils.ts lines 39 to 49: the Sequelize
class for the default connection name, a `name + 'Connection'` string
otherwise; an options object with a default or falsy name also yields the
Sequelize class. -/
def getConnectionToken (connection : Connection) : ConnectionToken :=
  match connection with
  | Connection.str s =>
    if DEFAULT_CONNECTION_NAME = s then ConnectionToken.sequelizeClass
    else ConnectionToken.token (s ++ "Connection")
  | Connection.options o =>
    match o.name with
    | none => ConnectionToken.sequelizeClass
    | some s =>
      if DEFAULT_CONNECTION_NAME = s ∨ s.isEmpty then ConnectionToken.sequelizeClass
      else ConnectionToken.token (s ++ "Connection")

/-- getModelToken, sequelize.utils.ts lines 20 to 29: throws
CircularDependencyException for a null or undefined entity (modelled by
`none`), otherwise returns the connection prefix followed by the entity
name and the suffix `Repository`. -/
def getModelToken (entity : Option EntityClass) (connection : Connection) :
    Except CircularDependencyException String :=
  match entity with
  | none => Except.error ⟨"@InjectModel()"⟩
  | some e => Except.ok ( getConnectionPrefix connection ++ e.name ++ "Repository")

/-- getConnectionName, sequelize.utils.ts lines 103 to 105:
`options && options.name ? options.name : DEFAULT_CONNECTION_NAME`. Both
`options` and `options.name` are tested for JS truthiness, so a null or
undefined options argument, an undefined name and an empty-string name all
fall back to the default connection name. -/
def getConnectionName (options : Option SequelizeModuleOptions) : String :=
  match options with
  | none => DEFAULT_CONNECTION_NAME
  | some o =>
    match o.name with
    | none => DEFAULT_CONNECTION_NAME
    | some s => if s.isEmpty then DEFAULT_CONNECTION_NAME else s

/-- One run of the retryWhen pipeline of handleRetry (lines 74 to 98). The
source observable is modelled by the outcome of each of its subscriptions:
subscription number k (0-based) either errors or succeeds. The scan
accumulator `errorCount` is seeded with 0 and persists across
resubscriptions, so the failure of subscription k is failure number k + 1;
the pipeline rethrows that failure when `errorCount + 1 >= retryAttempts`,
i.e. when `k + 1 >= retryAttempts`, and otherwise resubscribes after the
delay. The fuel argument only bounds the recursion: the wrapper starts it
at retryAttempts, and on a run from subscription k the guard
`k + 1 >= retryAttempts` fires no later than fuel `retryAttempts - k`
runs out, so the fuel-0 fallback returns exactly the pair the guard would.
The result is the list of failures raised in order together with the final
outcome delivered downstream. -/
def handleRetryAux {ε α : Type} (retryAttempts : Nat) (source : Nat → Except ε α) :
    Nat → Nat → List ε × Except ε α
  | 0, k =>
    match source k with
    | Except.ok v => ([], Except.ok v)
    | Except.error e => ([e], Except.error e)
  | fuel + 1, k =>
    match source k with
    | Except.ok v => ([], Except.ok v)
    | Except.error e =>
      if k + 1 ≥ retryAttempts then ([e], Except.error e)
      else
        (e :: (handleRetryAux retryAttempts source fuel (k + 1)).fst,
          (handleRetryAux retryAttempts source fuel (k + 1)).snd)

/-- handleRetry retryAttempts retryDelay source: the final outcome the
wrapped stream delivers. The JS defaults are retryAttempts = 9 and
retryDelay = 3000; retryDelay only schedules the resubscription and does
not affect which outcome is delivered, so it is carried but unused. -/
def handleRetry {ε α : Type} (retryAttempts : Nat) (retryDelay : Nat)
    (source : Nat → Except ε α) : Except ε α :=
  (handleRetryAux retryAttempts source retryAttempts 0).snd

/-- The list of connection failures a run of the wrapped stream raises, in
order. -/
def handleRetryErrors {ε α : Type} (retryAttempts : Nat)
    (source : Nat → Except ε α) : List ε :=
  (handleRetryAux retryAttempts source retryAttempts 0).fst

/-- Concrete source that fails once (error 0) and then succeeds with 42. -/
def srcOneFail : Nat → Except Nat Nat :=
  fun k => if k = 0 then Except.error 0 else Except.ok 42

/-- Concrete source failing three times (errors 0, 1, 2), then ok 99. -/
def srcFailsThree : Nat → Except Nat Nat :=
  fun k => if k < 3 then Except.error k else Except.ok 99

/-- Claim C5: for every non-null model reference and every connection,
getModelToken returns the connection prefix for that connection, followed
by the model name and the fixed suffix Repository. -/
theorem c5_model_token_shape (e : EntityClass) (c : Connection) :
    getModelToken (some e) c =
      Except.ok ( getConnectionPrefix c ++ e.name ++ "Repository") := rfl

/-- Claim C7: for every connection argument, getModelToken with an absent
(null or undefined) model reference raises CircularDependencyException
with the context string of the InjectModel decorator. -/
theorem c7_absent_entity_throws (c : Connection) :
    getModelToken none c = Except.error ⟨"@InjectModel()"⟩ := rfl

/-- Claim C8: token generation is deterministic, equal inputs give equal
results for getModelToken, getConnectionToken and getConnectionPrefix. -/
theorem c8_deterministic (e1 e2 : Option EntityClass) (c1 c2 : Connection)
    (he : e1 = e2) (hc : c1 = c2) :
    getModelToken e1 c1 = getModelToken e2 c2 ∧
    getConnectionToken c1 = getConnectionToken c2 ∧
    getConnectionPrefix c1 = getConnectionPrefix c2 := by
  subst he; subst hc; exact ⟨rfl, rfl, rfl⟩

/-- Witness for C8 at a concrete entity and connection. -/
theorem c8_witness :
    getModelToken (some ⟨"User"⟩) (Connection.str "db") =
      getModelToken (some ⟨"User"⟩) (Connection.str "db") ∧
    getConnectionToken (Connection.str "db") =
      getConnectionToken (Connection.str "db") ∧
    getConnectionPrefix (Connection.str "db") =
      getConnectionPrefix (Connection.str "db") :=
  c8_deterministic (some ⟨"User"⟩) (some ⟨"User"⟩)
    (Connection.str "db") (Connection.str "db") rfl rfl

/-- Claim C9: the default connection name, an options object whose name is
the default name, and an options object with an absent name all make
getConnectionToken return the Sequelize class itself. -/
theorem c9_default_connection_token :
    getConnectionToken (Connection.str DEFAULT_CONNECTION_NAME) =
      ConnectionToken.sequelizeClass ∧
    (∀ o : SequelizeModuleOptions, o.name = some DEFAULT_CONNECTION_NAME →
      getConnectionToken (Connection.options o) = ConnectionToken.sequelizeClass) ∧
    (∀ o : SequelizeModuleOptions, o.name = none →
      getConnectionToken (Connection.options o) = ConnectionToken.sequelizeClass) := by
  refine ⟨rfl, ?_, ?_⟩
  · intro o h
    simp [getConnectionToken, h]
  · intro o h
    simp [getConnectionToken, h]

/-- Witness for C9 at concrete options objects. -/
theorem c9_witness :
    getConnectionToken (Connection.options ⟨some DEFAULT_CONNECTION_NAME⟩) =
      ConnectionToken.sequelizeClass ∧
    getConnectionToken (Connection.options ⟨none⟩) =
      ConnectionToken.sequelizeClass :=
  ⟨c9_default_connection_token.2.1 ⟨some DEFAULT_CONNECTION_NAME⟩ rfl,
    c9_default_connection_token.2.2 ⟨none⟩ rfl⟩

/-- Claim C6 counterexample: an options object whose name is the empty
string has a non-default name, yet getConnectionPrefix returns the empty
string, not the name followed by an underscore, because the JS test
`!connection.name` also catches the empty string. -/
theorem c6_counterexample :
    (some "" : Option String) ≠ some DEFAULT_CONNECTION_NAME ∧
    getConnectionPrefix (Connection.options ⟨some ""⟩) = "" ∧
    getConnectionPrefix (Connection.options ⟨some ""⟩) ≠ "" ++ "_" :=
  ⟨by decide, rfl, by decide⟩

/-- Claim C6 (amended): getConnectionPrefix returns the empty string for
the default connection name; for a non-default string connection, and for
an options object with a present, non-empty, non-default name, it returns
that name followed by an underscore; for an options object with an absent,
empty or default name it returns the empty string. -/
theorem c6_amended_cases :
    getConnectionPrefix (Connection.str DEFAULT_CONNECTION_NAME) = "" ∧
    (∀ s : String, s ≠ DEFAULT_CONNECTION_NAME →
      getConnectionPrefix (Connection.str s) = s ++ "_") ∧
    (∀ s : String, s ≠ DEFAULT_CONNECTION_NAME → s.isEmpty = false →
      getConnectionPrefix (Connection.options ⟨some s⟩) = s ++ "_") ∧
    (∀ o : SequelizeModuleOptions,
      o.name = none ∨ o.name = some "" ∨ o.name = some DEFAULT_CONNECTION_NAME →
      getConnectionPrefix (Connection.options o) = "") := by
  refine ⟨rfl, ?_, ?_, ?_⟩
  · intro s hs
    simp [getConnectionPrefix, hs]
  · intro s hs he
    simp [getConnectionPrefix, hs, he]
  · intro o h
    rcases h with h | h | h <;> simp [getConnectionPrefix, h] <;> decide

/-- Witness for the amended C6 at concrete connections. -/
theorem c6_witness :
    getConnectionPrefix (Connection.str "db") = "db" ++ "_" ∧
    getConnectionPrefix (Connection.options ⟨some "db"⟩) = "db" ++ "_" ∧
    getConnectionPrefix (Connection.options ⟨none⟩) = "" :=
  ⟨c6_amended_cases.2.1 "db" (by decide),
    c6_amended_cases.2.2.1 "db" (by decide) rfl,
    c6_amended_cases.2.2.2 ⟨none⟩ (Or.inl rfl)⟩

/-- Claim C4 counterexample: for the non-default connection "db" the token
is "dbConnection" while the prefix is "db_", so the token is not the
prefix followed by the fixed suffix "Connection" (the underscore of the
prefix never appears in the connection token). -/
theorem c4_counterexample :
    getConnectionToken (Connection.str "db") = ConnectionToken.token "dbConnection" ∧
    getConnectionPrefix (Connection.str "db") = "db_" ∧
    getConnectionToken (Connection.str "db") ≠
      ConnectionToken.token ( getConnectionPrefix (Connection.str "db") ++ "Connection") :=
  ⟨rfl, rfl, by decide⟩

/-- Claim C4 (amended): for every non-default connection the token equals
the connection name directly followed by the fixed suffix Connection,
while the prefix equals the same name followed by an underscore; the token
is built from the name, not from the prefix. -/
theorem c4_token_uses_name_directly :
    (∀ s : String, s ≠ DEFAULT_CONNECTION_NAME →
      getConnectionToken (Connection.str s) = ConnectionToken.token (s ++ "Connection") ∧
      getConnectionPrefix (Connection.str s) = s ++ "_") ∧
    (∀ s : String, s ≠ DEFAULT_CONNECTION_NAME → s.isEmpty = false →
      getConnectionToken (Connection.options ⟨some s⟩) =
        ConnectionToken.token (s ++ "Connection") ∧
      getConnectionPrefix (Connection.options ⟨some s⟩) = s ++ "_") := by
  constructor
  · intro s hs
    have hs2 : ¬ (DEFAULT_CONNECTION_NAME = s) := fun h => hs h.symm
    exact ⟨by simp [getConnectionToken, hs2], by simp [getConnectionPrefix, hs]⟩
  · intro s hs he
    have hs2 : ¬ (DEFAULT_CONNECTION_NAME = s) := fun h => hs h.symm
    exact ⟨by simp [getConnectionToken, hs2, he], by simp [getConnectionPrefix, hs, he]⟩

/-- Witness for the amended C4 at the concrete connection "db". -/
theorem c4_witness :
    getConnectionToken (Connection.str "db") = ConnectionToken.token ("db" ++ "Connection") ∧
    getConnectionPrefix (Connection.str "db") = "db" ++ "_" :=
  c4_token_uses_name_directly.1 "db" (by decide)

/-- Claim C10 counterexample: for an options object with the present but
empty name, getConnectionName does not return options.name (the empty
string) but falls back to the default connection name, because
`options.name` is tested for JS truthiness. -/
theorem c10_counterexample :
    getConnectionName (some ⟨some ""⟩) = DEFAULT_CONNECTION_NAME ∧
    getConnectionName (some ⟨some ""⟩) ≠ "" :=
  ⟨rfl, by decide⟩

/-- Claim C10 (amended): getConnectionName is total; it returns the default
connection name for an absent options argument, an absent name, and also
for an empty-string name, and it returns options.name whenever the name is
a non-empty string. -/
theorem c10_connection_name_total :
    getConnectionName none = DEFAULT_CONNECTION_NAME ∧
    (∀ o : SequelizeModuleOptions, o.name = none →
      getConnectionName (some o) = DEFAULT_CONNECTION_NAME) ∧
    (∀ o : SequelizeModuleOptions, o.name = some "" →
      getConnectionName (some o) = DEFAULT_CONNECTION_NAME) ∧
    (∀ s : String, s.isEmpty = false → getConnectionName (some ⟨some s⟩) = s) := by
  refine ⟨rfl, ?_, ?_, ?_⟩
  · intro o h
    simp [getConnectionName, h]
  · intro o h
    simp [getConnectionName, h]
    decide
  · intro s he
    simp [getConnectionName, he]

/-- Helper: on a run whose subscriptions before N all fail and whose
subscription N succeeds, the pipeline delivers the success value whenever
the attempt budget strictly exceeds N and enough fuel remains. -/
theorem handleRetryAux_ok {ε α : Type} (r N : Nat) (src : Nat → Except ε α)
    (err : Nat → ε) (v : α)
    (hfail : ∀ k, k < N → src k = Except.error (err k))
    (hsucc : src N = Except.ok v) (hr : N < r) :
    ∀ fuel j, j ≤ N → N - j ≤ fuel →
      (handleRetryAux r src fuel j).snd = Except.ok v := by
  intro fuel
  induction fuel with
  | zero =>
    intro j hj hfuel
    have hjN : j = N := by omega
    subst hjN
    simp [handleRetryAux, hsucc]
  | succ fuel ih =>
    intro j hj hfuel
    rcases Nat.eq_or_lt_of_le hj with hjN | hjN
    · subst hjN
      simp [handleRetryAux, hsucc]
    · have hguard : ¬ (j + 1 ≥ r) := by omega
      simp [handleRetryAux, hfail j hjN, hguard]
      exact ih (j + 1) (by omega) (by omega)

/-- Helper: on a run whose subscriptions before the budget r all fail, the
pipeline delivers the failure of attempt r - 1 and raises exactly r - j
failures when started at attempt j with enough fuel. -/
theorem handleRetryAux_exhaust {ε α : Type} (r : Nat) (src : Nat → Except ε α)
    (err : Nat → ε)
    (hfail : ∀ k, k < r → src k = Except.error (err k)) :
    ∀ fuel j, j < r → r ≤ fuel + j + 1 →
      (handleRetryAux r src fuel j).snd = Except.error (err (r - 1)) ∧
      (handleRetryAux r src fuel j).fst.length = r - j := by
  intro fuel
  induction fuel with
  | zero =>
    intro j hj hfuel
    have hjr : j = r - 1 := by omega
    constructor
    · simp [handleRetryAux, hfail j hj]
      rw [hjr]
    · simp [handleRetryAux, hfail j hj]
      omega
  | succ fuel ih =>
    intro j hj hfuel
    by_cases hge : j + 1 ≥ r
    · have hjr : j = r - 1 := by omega
      constructor
      · simp [handleRetryAux, hfail j hj, hge]
        rw [hjr]
      · simp [handleRetryAux, hfail j hj, hge]
        omega
    · have hj1 : j + 1 < r := by omega
      obtain ⟨ih1, ih2⟩ := ih (j + 1) hj1 (by omega)
      constructor
      · simp [handleRetryAux, hfail j hj, hge]
        exact ih1
      · simp [handleRetryAux, hfail j hj, hge, ih2]
        omega

/-- Helper: whenever a run delivers an error downstream, the list of
failures it raised ends with exactly that error. -/
theorem handleRetryAux_last {ε α : Type} (r : Nat) (src : Nat → Except ε α)
    (e : ε) :
    ∀ fuel j, (handleRetryAux r src fuel j).snd = Except.error e →
      ∃ pre : List ε, (handleRetryAux r src fuel j).fst = pre ++ [e] := by
  intro fuel
  induction fuel with
  | zero =>
    intro j h
    cases hs : src j with
    | ok v => simp [handleRetryAux, hs] at h
    | error e2 =>
      simp [handleRetryAux, hs] at h
      subst h
      exact ⟨[], by simp [handleRetryAux, hs]⟩
  | succ fuel ih =>
    intro j h
    cases hs : src j with
    | ok v => simp [handleRetryAux, hs] at h
    | error e2 =>
      by_cases hge : j + 1 ≥ r
      · simp [handleRetryAux, hs, hge] at h
        subst h
        exact ⟨[], by simp [handleRetryAux, hs, hge]⟩
      · simp [handleRetryAux, hs, hge] at h
        obtain ⟨pre, hpre⟩ := ih (j + 1) h
        exact ⟨e2 :: pre, by simp [handleRetryAux, hs, hge, hpre]⟩

/-- Claim C1 counterexample: srcOneFail fails once (N = 1) and then
succeeds with 42, and retryAttempts = 1 satisfies retryAttempts >= N, yet
the stream delivers the original error: the first failure is already
failure number 1, which reaches the budget, so the success is never
attempted. -/
theorem c1_counterexample :
    srcOneFail 0 = Except.error 0 ∧
    srcOneFail 1 = Except.ok 42 ∧
    handleRetry 1 3000 srcOneFail = Except.error 0 ∧
    handleRetry 1 3000 srcOneFail ≠ Except.ok 42 :=
  ⟨rfl, rfl, rfl, fun h => Except.noConfusion h⟩

/-- Claim C1 (amended): for a source that fails N times and then succeeds,
handleRetry delivers the eventual success value whenever retryAttempts is
strictly greater than N (at least N + 1); retryAttempts = N is not enough,
because the failure of attempt N - 1 is failure number N, which already
exhausts the budget. -/
theorem c1_retry_success_strict_budget {ε α : Type}
    (retryAttempts retryDelay N : Nat) (src : Nat → Except ε α)
    (err : Nat → ε) (v : α)
    (hfail : ∀ k, k < N → src k = Except.error (err k))
    (hsucc : src N = Except.ok v)
    (hbudget : N < retryAttempts) :
    handleRetry retryAttempts retryDelay src = Except.ok v :=
  handleRetryAux_ok retryAttempts N src err v hfail hsucc hbudget
    retryAttempts 0 (Nat.zero_le N) (by omega)

/-- Witness for the amended C1: one failure, budget of two attempts. -/
theorem c1_witness : handleRetry 2 3000 srcOneFail = Except.ok 42 :=
  c1_retry_success_strict_budget 2 3000 1 srcOneFail (fun _ => 0) 42
    (by
      intro k hk
      have hk0 : k = 0 := by omega
      subst hk0
      rfl)
    rfl (by omega)

/-- Claim C2 counterexample: srcFailsThree fails three times with the
distinct errors 0, 1, 2; with retryAttempts = 2 < 3 the stream delivers
error 1, the failure of the second (final) attempt, not the original first
failure 0. -/
theorem c2_counterexample :
    srcFailsThree 0 = Except.error 0 ∧
    srcFailsThree 1 = Except.error 1 ∧
    srcFailsThree 2 = Except.error 2 ∧
    handleRetry 2 3000 srcFailsThree = Except.error 1 ∧
    handleRetry 2 3000 srcFailsThree ≠ Except.error 0 :=
  ⟨rfl, rfl, rfl, rfl, by
    intro h
    have h3 : (Except.error 1 : Except Nat Nat) = Except.error 0 := h
    have h2 : (1 : Nat) = 0 := Except.error.inj h3
    omega⟩

/-- Claim C2 (amended): for a source that fails at least N times, with
1 <= retryAttempts < N the stream makes exactly retryAttempts attempts and
propagates, unchanged, the failure raised on the final attempt (the most
recent failure, attempt index retryAttempts - 1); this coincides with the
first failure only when retryAttempts = 1 or the failures are equal. -/
theorem c2_exhaustion_propagates_final_error {ε α : Type}
    (retryAttempts retryDelay N : Nat) (src : Nat → Except ε α)
    (err : Nat → ε)
    (hone : 1 ≤ retryAttempts) (hlt : retryAttempts < N)
    (hfail : ∀ k, k < N → src k = Except.error (err k)) :
    handleRetry retryAttempts retryDelay src =
      Except.error (err (retryAttempts - 1)) ∧
    (handleRetryErrors retryAttempts src).length = retryAttempts := by
  have hfail2 : ∀ k, k < retryAttempts → src k = Except.error (err k) :=
    fun k hk => hfail k (by omega)
  obtain ⟨h1, h2⟩ := handleRetryAux_exhaust retryAttempts src err hfail2
    retryAttempts 0 (by omega) (by omega)
  exact ⟨h1, by simpa [handleRetryErrors] using h2⟩

/-- Witness for the amended C2: three failures, budget of two attempts. -/
theorem c2_witness :
    handleRetry 2 3000 srcFailsThree = Except.error 1 ∧
    (handleRetryErrors 2 srcFailsThree).length = 2 :=
  c2_exhaustion_propagates_final_error 2 3000 3 srcFailsThree (fun k => k)
    (by omega) (by omega) (by intro k hk; interval_cases k <;> rfl)

/-- Claim C3: when the retry budget is exhausted, i.e. the wrapped stream
delivers an error to the caller, that error is the last underlying
connection failure the source raised: the list of raised failures ends
with exactly the propagated error. -/
theorem c3_error_is_last_raised {ε α : Type} (retryAttempts retryDelay : Nat)
    (src : Nat → Except ε α) (e : ε)
    (h : handleRetry retryAttempts retryDelay src = Except.error e) :
    ∃ pre : List ε, handleRetryErrors retryAttempts src = pre ++ [e] :=
  handleRetryAux_last retryAttempts src e retryAttempts 0 h

/-- Witness for C3: budget 2, exhausted after raising errors 0 then 1. -/
theorem c3_witness :
    handleRetry 2 3000 srcFailsThree = Except.error 1 ∧
    ∃ pre : List Nat, handleRetryErrors 2 srcFailsThree = pre ++ [1] :=
  ⟨rfl, c3_error_is_last_raised 2 3000 srcFailsThree 1 rfl⟩

/-- Witness for the amended C10 at concrete options. -/
theorem c10_witness :
    getConnectionName (some ⟨none⟩) = DEFAULT_CONNECTION_NAME ∧
    getConnectionName (some ⟨some "db"⟩) = "db" :=
  ⟨c10_connection_name_total.2.1 ⟨none⟩ rfl,
    c10_connection_name_total.2.2.2 "db" rfl⟩

end SequelizeUtils
